import Mathlib

/-!
Verification of the Rythmiq-One document-normalization pipeline
(`src/worker`): the size-bounded compression search (`schema.py`), the
enhancement guardrails (`enhancement.py`, `worker.py`), the quality
scorer (`quality.py`) and the OCR fail-closed wrappers (`ocr.py`),
shallowly embedded in Lean.

Image buffers, OpenCV primitives and the PaddleOCR engine are external
capabilities from the pipeline's point of view; they are modelled as
abstract parameters (opaque image/channel types together with fallible
operations on them), while every piece of control flow, arithmetic and
thresholding that the repository itself implements is translated
literally from the Python source.  Python floats are modelled as exact
rationals and byte buffers by their lengths or by abstract types.
-/

namespace Errors

/-- Error codes of `errors.py` used by the processors embedded here
(the source enum has further codes for stages outside this
development). -/
inductive ErrorCode
  | DECODE_FAILED
  | RESIZE_FAILED
  | SIZE_EXCEEDED
  | OCR_FAILED
  | ENHANCE_FAILED
  | QUALITY_FAILED
  | SCHEMA_FAILED
deriving DecidableEq, Repr

/-- String value of an error code (the `str` enum payload in
`errors.py`). -/
def ErrorCode.value : ErrorCode → String
  | .DECODE_FAILED => "DECODE_FAILED"
  | .RESIZE_FAILED => "RESIZE_FAILED"
  | .SIZE_EXCEEDED => "SIZE_EXCEEDED"
  | .OCR_FAILED => "OCR_FAILED"
  | .ENHANCE_FAILED => "ENHANCE_FAILED"
  | .QUALITY_FAILED => "QUALITY_FAILED"
  | .SCHEMA_FAILED => "SCHEMA_FAILED"

/-- Pipeline processing stages (`ProcessingStage` in `errors.py`). -/
inductive ProcessingStage
  | INIT
  | FETCH
  | DECODE
  | QUALITY
  | ENHANCE
  | OCR
  | SCHEMA
  | UPLOAD
deriving DecidableEq, Repr

/-- String value of a processing stage. -/
def ProcessingStage.value : ProcessingStage → String
  | .INIT => "init"
  | .FETCH => "fetch"
  | .DECODE => "decode"
  | .QUALITY => "quality"
  | .ENHANCE => "enhance"
  | .OCR => "ocr"
  | .SCHEMA => "schema"
  | .UPLOAD => "upload"

/-- Structured worker error (`WorkerError` in `errors.py`; the
`details` payload is carried separately where a claim needs it). -/
structure WorkerError where
  code : ErrorCode
  stage : ProcessingStage
  message : String
deriving DecidableEq, Repr

/-- String rendering of a `WorkerError` (its `__str__`). -/
def WorkerError.str (e : WorkerError) : String :=
  e.code.value ++ " at " ++ e.stage.value ++ ": " ++ e.message

end Errors

namespace Schema

/-- Maximum compression iterations to prevent infinite loops
(`MAX_COMPRESSION_ITERATIONS` in `schema.py`). -/
def MAX_COMPRESSION_ITERATIONS : Nat := 20

/-- Minimum JPEG quality threshold (`MIN_JPEG_QUALITY` in
`schema.py`). -/
def MIN_JPEG_QUALITY : Nat := 20

/-- Payload of the SIZE_EXCEEDED `WorkerError` raised by
`compress_to_size`: the details dict `{min_size_kb, target_kb}`. -/
structure SizeExceededErr where
  min_size_kb : Nat
  target_kb : Nat
deriving DecidableEq, Repr

/-- Successful outcome of `compress_to_size`: the encoded bytes are
abstracted to their length in bytes (`len(data)`), paired with the
final quality, mirroring the `(compressed bytes, final quality)`
return value. -/
structure CompressResult where
  size : Nat
  quality : Nat
deriving DecidableEq, Repr

/-- Binary-search loop of `compress_to_size` (`schema.py`).  `encode q`
is the byte length of `encode_with_dpi(img, dpi, format, q)` for the
fixed image, DPI and format of the enclosing call; the loop is run with
`fuel = MAX_COMPRESSION_ITERATIONS`.  State: `(low, high, bestSize,
bestQ)` for `low_quality`, `high_quality`, `len(best_data)`,
`best_quality`.  Returns the final `(len(best_data), best_quality)`
together with the number of `encode_with_dpi` calls performed. -/
def compressLoop (encode : Nat → Nat) (maxBytes : Nat) :
    Nat → Nat → Nat → Nat → Nat → Nat × Nat × Nat
  | 0, _, _, bestSize, bestQ => (bestSize, bestQ, 0)
  | fuel + 1, low, high, bestSize, bestQ =>
    if low > high then (bestSize, bestQ, 0)
    else
      let mid := (low + high) / 2
      let sz := encode mid
      let rest :=
        if sz ≤ maxBytes then
          compressLoop encode maxBytes fuel (mid + 1) high sz mid
        else
          compressLoop encode maxBytes fuel low (mid - 1) bestSize bestQ
      (rest.1, rest.2.1, rest.2.2 + 1)

/-- Translation of `compress_to_size` (`schema.py`), with the encoder
abstracted to the size function `encode`.  Returns the result of the
Python function (or its SIZE_EXCEEDED error) together with the total
number of `encode_with_dpi` calls performed. -/
def compress_to_size (encode : Nat → Nat) (max_kb initial_quality : Nat) :
    Except SizeExceededErr CompressResult × Nat :=
  let max_bytes := max_kb * 1024
  let sz0 := encode initial_quality
  if sz0 ≤ max_bytes then
    (Except.ok ⟨sz0, initial_quality⟩, 1)
  else
    let r := compressLoop encode max_bytes MAX_COMPRESSION_ITERATIONS
      MIN_JPEG_QUALITY initial_quality sz0 initial_quality
    let bestSize := r.1
    let bestQ := r.2.1
    let loopCount := r.2.2
    if bestSize > max_bytes then
      let szFloor := encode MIN_JPEG_QUALITY
      if szFloor > max_bytes then
        (Except.error ⟨szFloor / 1024, max_kb⟩, 1 + loopCount + 1)
      else
        (Except.ok ⟨szFloor, MIN_JPEG_QUALITY⟩, 1 + loopCount + 1)
    else
      (Except.ok ⟨bestSize, bestQ⟩, 1 + loopCount)

end Schema

namespace Quality

/-- Normalization ceiling for the Laplacian variance (`SHARPNESS_MAX`
in `quality.py`). -/
def SHARPNESS_MAX : ℚ := 500.0

/-- Intermediate image statistics that `quality.py` obtains from the
decoded grayscale pixels through OpenCV/NumPy primitives: the Laplacian
variance (`compute_sharpness`), the brightness-histogram standard
deviation and the dark/bright mass fractions (`compute_exposure`), the
std of the high-frequency residual (`compute_noise`) and the Canny
edge-pixel fraction (`compute_edge_density`).  The scoring arithmetic
applied to them is translated literally below. -/
structure RawImageStats where
  variance : ℚ
  std_val : ℚ
  dark_fraction : ℚ
  bright_fraction : ℚ
  noise_std : ℚ
  density : ℚ
deriving DecidableEq, Repr

/-- Ranges the statistics of a successfully decoded grayscale image
satisfy: a variance and a standard deviation are nonnegative, histogram
mass fractions and the edge-pixel fraction lie in `[0,1]`. -/
def RawImageStats.Valid (m : RawImageStats) : Prop :=
  0 ≤ m.variance ∧ 0 ≤ m.std_val ∧
  0 ≤ m.dark_fraction ∧ m.dark_fraction ≤ 1 ∧
  0 ≤ m.bright_fraction ∧ m.bright_fraction ≤ 1 ∧
  0 ≤ m.noise_std ∧ 0 ≤ m.density ∧ m.density ≤ 1

instance (m : RawImageStats) : Decidable m.Valid := by
  unfold RawImageStats.Valid; infer_instance

/-- Translation of `compute_sharpness` (`quality.py`): the Laplacian
variance clamped to `[0, SHARPNESS_MAX]` and normalized. -/
def compute_sharpness (variance : ℚ) : ℚ :=
  min (max variance 0.0) SHARPNESS_MAX / SHARPNESS_MAX

/-- Translation of `compute_exposure` (`quality.py`): piecewise contrast
score from the histogram standard deviation, then the near-black and
near-blank override penalties. -/
def compute_exposure (std_val dark_fraction bright_fraction : ℚ) : ℚ :=
  let score : ℚ :=
    if std_val < 20 then std_val / 20 * 0.5
    else if std_val < 40 then 0.5 + 0.3 * ((std_val - 20) / 20)
    else if std_val < 80 then 0.8 + 0.2 * ((std_val - 40) / 40)
    else 1.0
  if dark_fraction > 0.9 then score * 0.3
  else if bright_fraction > 0.98 then score * 0.5
  else score

/-- Translation of `compute_noise` (`quality.py`): residual std
normalized against a 30-unit ceiling, inverted. -/
def compute_noise (noise_std : ℚ) : ℚ :=
  1.0 - min (noise_std / 30.0) 1.0

/-- Translation of `compute_edge_density` (`quality.py`): five-band
piecewise score of the Canny edge-pixel fraction. -/
def compute_edge_density (density : ℚ) : ℚ :=
  if density < 0.02 then density / 0.02
  else if density < 0.05 then 0.7 + 0.3 * ((density - 0.02) / 0.03)
  else if density < 0.15 then 1.0
  else if density < 0.25 then 1.0 - 0.3 * ((density - 0.15) / 0.10)
  else max 0.3 (0.7 - (density - 0.25))

/-- Quality score breakdown by metric (`QualityBreakdown` in
`models.py`). -/
structure QualityBreakdown where
  sharpness : ℚ
  exposure : ℚ
  noise : ℚ
  edge_density : ℚ
deriving DecidableEq, Repr

/-- Quality assessment result (`QualityResult` in `models.py`). -/
structure QualityResult where
  score : ℚ
  breakdown : QualityBreakdown
deriving DecidableEq, Repr

/-- Translation of `assess_quality` (`quality.py`) after the decode and
metric-extraction steps: the four submetric scores and the fixed
weighted average. -/
def assess_quality (m : RawImageStats) : QualityResult :=
  let sharpness := compute_sharpness m.variance
  let exposure := compute_exposure m.std_val m.dark_fraction m.bright_fraction
  let noise := compute_noise m.noise_std
  let edge_density := compute_edge_density m.density
  let overall_score : ℚ :=
    0.35 * sharpness + 0.30 * exposure + 0.20 * noise + 0.15 * edge_density
  ⟨overall_score, ⟨sharpness, exposure, noise, edge_density⟩⟩

/-- Spec text of §4.1's exposure metric read with inclusive penalty
thresholds, as claimed: base piecewise contrast map, then multiply by
0.3 when the dark mass fraction is at least 90% and by 0.5 when the
bright mass fraction is at least 98%.  Modelled from the claim's words
for comparison with the source translation `compute_exposure`. -/
def compute_exposure_inclusive (std_val dark_fraction bright_fraction : ℚ) : ℚ :=
  let score : ℚ :=
    if std_val < 20 then std_val / 20 * 0.5
    else if std_val < 40 then 0.5 + 0.3 * ((std_val - 20) / 20)
    else if std_val < 80 then 0.8 + 0.2 * ((std_val - 40) / 40)
    else 1.0
  if dark_fraction ≥ 0.9 then score * 0.3
  else if bright_fraction ≥ 0.98 then score * 0.5
  else score

/-- Amended spec of the exposure metric: identical to
`compute_exposure_inclusive` except that both penalty thresholds are
strict (strictly more than 90% dark mass, strictly more than 98% bright
mass). -/
def compute_exposure_strict (std_val dark_fraction bright_fraction : ℚ) : ℚ :=
  let score : ℚ :=
    if std_val < 20 then std_val / 20 * 0.5
    else if std_val < 40 then 0.5 + 0.3 * ((std_val - 20) / 20)
    else if std_val < 80 then 0.8 + 0.2 * ((std_val - 40) / 40)
    else 1.0
  if dark_fraction > 0.9 then score * 0.3
  else if bright_fraction > 0.98 then score * 0.5
  else score

/-- Fraction of pixel mass in brightness levels 0–29
(`hist[0:30].sum()` on the normalized histogram of the pixel list). -/
def pixel_dark_fraction (px : List Nat) : ℚ :=
  ((px.countP (fun v => v < 30) : ℚ)) / px.length

/-- Fraction of pixel mass in brightness levels 225–255
(`hist[225:256].sum()` on the normalized histogram). -/
def pixel_bright_fraction (px : List Nat) : ℚ :=
  ((px.countP (fun v => 225 ≤ v) : ℚ)) / px.length

/-- Histogram mean `Σ v·hist[v]` of a pixel list. -/
def pixel_mean (px : List Nat) : ℚ :=
  (px.map (fun v => (v : ℚ))).sum / px.length

/-- Histogram variance `Σ (v − mean)²·hist[v]` of a pixel list; the
histogram standard deviation of `compute_exposure` is its square
root. -/
def pixel_variance (px : List Nat) : ℚ :=
  (px.map (fun v => ((v : ℚ) - pixel_mean px) ^ 2)).sum / px.length

/-- Grayscale image (as its pixel list) whose histogram puts exactly
90% of the mass in the dark band: nine pixels at level 0 and one at
level 200. -/
def darkBoundaryPixels : List Nat := [0, 0, 0, 0, 0, 0, 0, 0, 0, 200]

end Quality

namespace Enhancement

open Errors

/-- GUARD-001 threshold (`READABLE_QUALITY_THRESHOLD` in
`enhancement.py`). -/
def READABLE_QUALITY_THRESHOLD : ℚ := 0.75

/-- Configuration for enhancement operations (`EnhancementOptions`
dataclass in `enhancement.py`), with the same defaults. -/
structure EnhancementOptions where
  correct_orientation : Bool := true
  denoise : Bool := true
  normalize_color : Bool := true
  denoise_strength : Nat := 7
  clahe_clip_limit : ℚ := 2.0
  clahe_grid_size : Nat × Nat := (8, 8)
  quality_score : Option ℚ := none
  is_readable : Bool := false

/-- Failure raised by an OpenCV primitive (`cv2.error`), the exception
class the enhancement steps catch. -/
structure CvError where
  msg : String
deriving DecidableEq, Repr

/-- OpenCV primitives used by `enhancement.py`, abstracted over an
opaque image type `Img` and channel type `Ch`; each may fail with a
`cv2.error`.  `correct_orientation` is the composite §4.2 detector of
`enhancement.py`, which degrades internally to a no-op and returns
`(image, corrected)`.  `whiteBalanceBody` is the NumPy body of
`auto_white_balance` (channel means, gray-world scaling clamped to
`[0.5, 2.0]`). -/
structure CvOps (Img Ch : Type) where
  fastNlMeansDenoisingColored : Img → Nat → Except CvError Img
  cvtColorBGR2LAB : Img → Except CvError Img
  splitChannels : Img → Except CvError (Ch × Ch × Ch)
  claheApply : ℚ → Nat × Nat → Ch → Except CvError Ch
  mergeChannels : Ch × Ch × Ch → Except CvError Img
  cvtColorLAB2BGR : Img → Except CvError Img
  whiteBalanceBody : Img → Except CvError Img
  correct_orientation : Img → Img × Bool

/-- Translation of `denoise` (`enhancement.py`): apply the non-local
means primitive; on `cv2.error`, return the original image with
`applied=false`. -/
def denoise {Img Ch : Type} (ops : CvOps Img Ch) (img : Img)
    (strength : Nat) : Img × Bool :=
  match ops.fastNlMeansDenoisingColored img strength with
  | Except.ok denoised => (denoised, true)
  | Except.error _ => (img, false)

/-- Body of the `try` block of `normalize_color` (`enhancement.py`):
BGR→LAB, split, CLAHE on the L channel, merge, LAB→BGR; fails as soon
as any primitive fails. -/
def normalizeColorChain {Img Ch : Type} (ops : CvOps Img Ch) (img : Img)
    (clip_limit : ℚ) (grid_size : Nat × Nat) : Except CvError Img := do
  let lab ← ops.cvtColorBGR2LAB img
  let (l_channel, a_channel, b_channel) ← ops.splitChannels lab
  let l_enhanced ← ops.claheApply clip_limit grid_size l_channel
  let lab_enhanced ← ops.mergeChannels (l_enhanced, a_channel, b_channel)
  ops.cvtColorLAB2BGR lab_enhanced

/-- Translation of `normalize_color` (`enhancement.py`): run the CLAHE
chain; on `cv2.error`, return the original image with
`applied=false`. -/
def normalize_color {Img Ch : Type} (ops : CvOps Img Ch) (img : Img)
    (clip_limit : ℚ) (grid_size : Nat × Nat) : Img × Bool :=
  match normalizeColorChain ops img clip_limit grid_size with
  | Except.ok result => (result, true)
  | Except.error _ => (img, false)

/-- Translation of `auto_white_balance` (`enhancement.py`): gray-world
scaling; on any internal exception, return the original image with
`applied=false`. -/
def auto_white_balance {Img Ch : Type} (ops : CvOps Img Ch) (img : Img) :
    Img × Bool :=
  match ops.whiteBalanceBody img with
  | Except.ok result => (result, true)
  | Except.error _ => (img, false)

/-- Translation of `should_skip_enhancement` (`enhancement.py`,
GUARD-001): skip iff a quality score was supplied, it exceeds the
threshold, and the image is readable. -/
def should_skip_enhancement (options : EnhancementOptions) : Bool :=
  match options.quality_score with
  | none => false
  | some quality_score =>
    decide (quality_score > READABLE_QUALITY_THRESHOLD) && options.is_readable

/-- Image enhancement result (`EnhancementResult` in `models.py`), with
the byte buffer abstracted to a type `B`. -/
structure EnhancementResult (B : Type) where
  image_data : B
  orientation_corrected : Bool
  denoised : Bool
  color_normalized : Bool

/-- Translation of `enhance_image` (`enhancement.py`): decode, GUARD-001
skip check, orientation correction (always allowed), denoising and
white-balance+CLAHE (both suppressed when the guard fires), re-encode.
The decode and encode steps are abstracted to fallible functions
(`decode_image` raises DECODE_FAILED, `encode_image` ENHANCE_FAILED in
the source). -/
def enhance_image {Img Ch B : Type} (ops : CvOps Img Ch)
    (decode_image : B → Except WorkerError Img)
    (encode_image : Img → Except WorkerError B)
    (data : B) (options : EnhancementOptions) :
    Except WorkerError (EnhancementResult B) :=
  let skip_enhancement := should_skip_enhancement options
  match decode_image data with
  | Except.error e => Except.error e
  | Except.ok img0 =>
    let step1 :=
      if options.correct_orientation then ops.correct_orientation img0
      else (img0, false)
    let img1 := step1.1
    let orientation_corrected := step1.2
    let step2 :=
      if options.denoise && !skip_enhancement then
        denoise ops img1 options.denoise_strength
      else (img1, false)
    let img2 := step2.1
    let denoised := step2.2
    let step3 :=
      if options.normalize_color && !skip_enhancement then
        let wb := auto_white_balance ops img2
        normalize_color ops wb.1 options.clahe_clip_limit options.clahe_grid_size
      else (img2, false)
    let img3 := step3.1
    let color_normalized := step3.2
    match encode_image img3 with
    | Except.error e => Except.error e
    | Except.ok result_data =>
      Except.ok ⟨result_data, orientation_corrected, denoised, color_normalized⟩

/-- Test fixture: OpenCV primitives that all fail with a `cv2.error`
(orientation detection degrades to a no-op, as the source's detector
does on insufficient signal). -/
def failingCvOps : CvOps Unit Unit where
  fastNlMeansDenoisingColored := fun _ _ => Except.error ⟨"cv2.error"⟩
  cvtColorBGR2LAB := fun _ => Except.error ⟨"cv2.error"⟩
  splitChannels := fun _ => Except.error ⟨"cv2.error"⟩
  claheApply := fun _ _ _ => Except.error ⟨"cv2.error"⟩
  mergeChannels := fun _ => Except.error ⟨"cv2.error"⟩
  cvtColorLAB2BGR := fun _ => Except.error ⟨"cv2.error"⟩
  whiteBalanceBody := fun _ => Except.error ⟨"cv2.error"⟩
  correct_orientation := fun img => (img, false)

/-- Test fixture: OpenCV primitives that all succeed, with orientation
correction reporting a correction. -/
def rotatingCvOps : CvOps Unit Unit where
  fastNlMeansDenoisingColored := fun img _ => Except.ok img
  cvtColorBGR2LAB := fun img => Except.ok img
  splitChannels := fun _ => Except.ok ((), (), ())
  claheApply := fun _ _ ch => Except.ok ch
  mergeChannels := fun _ => Except.ok ()
  cvtColorLAB2BGR := fun img => Except.ok img
  whiteBalanceBody := fun img => Except.ok img
  correct_orientation := fun img => (img, true)

/-- Test fixture: a decode step that always succeeds on the unit image
type. -/
def okDecode : Unit → Except Errors.WorkerError Unit := fun _ => Except.ok ()

/-- Test fixture: an encode step that always succeeds on the unit image
type. -/
def okEncode : Unit → Except Errors.WorkerError Unit := fun _ => Except.ok ()

/-- Test fixture: enhancement options carrying a 0.9 quality score and
a readable flag, so GUARD-001 fires. -/
def skipOptions : EnhancementOptions :=
  { quality_score := some 0.9, is_readable := true }

end Enhancement

namespace Ocr

open Errors

/-- OCR bounding box (`OCRBox` in `models.py`). -/
structure OCRBox where
  x : Int
  y : Int
  width : Int
  height : Int
  text : String
  confidence : ℚ
deriving DecidableEq, Repr

/-- OCR extraction result (`OCRResult` in `models.py`). -/
structure OCRResult where
  text : String
  confidence : ℚ
  boxes : List OCRBox
deriving DecidableEq, Repr

/-- Generic Python runtime exception (any non-`WorkerError` raised
inside `extract_text`). -/
structure PyException where
  msg : String
deriving DecidableEq, Repr

/-- External steps of `extract_text` (`ocr.py`), abstracted: image
decode and engine initialization raise `WorkerError` on failure
(DECODE_FAILED / OCR_FAILED); inference and result parsing fail with
generic runtime exceptions. -/
structure OcrSteps (B Img Engine PaddleRes : Type) where
  decode_image_for_ocr : B → Except WorkerError Img
  get_ocr_engine : Except WorkerError Engine
  run_ocr_inference : Engine → Img → Except PyException PaddleRes
  parse_paddle_result : PaddleRes → Except PyException (String × ℚ × List OCRBox)

/-- Inference-and-parse portion of the `try` block of `extract_text`:
run the engine, then parse its raw result. -/
def inferAndParse {B Img Engine PaddleRes : Type}
    (steps : OcrSteps B Img Engine PaddleRes) (ocr : Engine) (img : Img) :
    Except PyException (String × ℚ × List OCRBox) := do
  let result ← steps.run_ocr_inference ocr img
  steps.parse_paddle_result result

/-- Translation of `extract_text` (`ocr.py`): decode, engine
initialization and inference; `WorkerError`s from decode or engine
initialization are re-raised, while OCR runtime errors yield the empty
result (`text=""`, `confidence=0.0`, `boxes=[]`) per contract. -/
def extract_text {B Img Engine PaddleRes : Type}
    (steps : OcrSteps B Img Engine PaddleRes) (data : B) :
    Except WorkerError OCRResult :=
  match steps.decode_image_for_ocr data with
  | Except.error e => Except.error e
  | Except.ok img =>
    match steps.get_ocr_engine with
    | Except.error e => Except.error e
    | Except.ok ocr =>
      match inferAndParse steps ocr img with
      | Except.ok (text, confidence, boxes) => Except.ok ⟨text, confidence, boxes⟩
      | Except.error _ => Except.ok ⟨"", 0.0, []⟩

/-- Translation of `extract_text_safe` (`ocr.py`): wrap `extract_text`,
turn empty text or low confidence into a warning, and turn a raised
`WorkerError` into the empty result with the error string as
warning. -/
def extract_text_safe {B Img Engine PaddleRes : Type}
    (steps : OcrSteps B Img Engine PaddleRes) (data : B) :
    OCRResult × Option String :=
  match extract_text steps data with
  | Except.ok result =>
    let warning : Option String :=
      if result.text.trim = "" then some "OCR returned no text"
      else if result.confidence < 0.5 then
        some ("Low OCR confidence: " ++ toString result.confidence)
      else none
    (result, warning)
  | Except.error e => (⟨"", 0.0, []⟩, some e.str)

/-- Test fixture: OCR steps whose decode and engine initialization
succeed but whose inference raises a runtime exception. -/
def crashingOcrSteps : OcrSteps Unit Unit Unit Unit where
  decode_image_for_ocr := fun _ => Except.ok ()
  get_ocr_engine := Except.ok ()
  run_ocr_inference := fun _ _ => Except.error ⟨"paddle crashed"⟩
  parse_paddle_result := fun _ => Except.ok ("", 0, [])

end Ocr

namespace Worker

/-- GUARD-002 OCR rollback threshold (`OCR_ROLLBACK_THRESHOLD` in
`worker.py`). -/
def OCR_ROLLBACK_THRESHOLD : ℚ := 0.10

/-- Readability flag computed by `process_job` (`worker.py`):
`is_readable = pre_ocr_confidence > 0.5`. -/
def is_readable (pre_ocr_confidence : ℚ) : Bool :=
  decide (pre_ocr_confidence > 0.5)

/-- GUARD-002 rollback decision of `process_job` (`worker.py`):
`use_original` is set iff `pre_ocr_confidence > 0` and
`post_ocr_confidence < pre_ocr_confidence - OCR_ROLLBACK_THRESHOLD`. -/
def rollback_triggered (pre_ocr_confidence post_ocr_confidence : ℚ) : Bool :=
  decide (pre_ocr_confidence > 0) &&
    decide (post_ocr_confidence < pre_ocr_confidence - OCR_ROLLBACK_THRESHOLD)

end Worker

namespace Schema

/-- The loop performs at most `fuel` encode calls. -/
theorem compressLoop_count_le (encode : Nat → Nat) (maxBytes : Nat) :
    ∀ fuel low high bestSize bestQ,
      (compressLoop encode maxBytes fuel low high bestSize bestQ).2.2 ≤ fuel := by
  intro fuel
  induction fuel with
  | zero => intro low high bestSize bestQ; simp [compressLoop]
  | succ n ih =>
    intro low high bestSize bestQ
    unfold compressLoop
    split
    · simp
    · simp only
      split
      · exact Nat.succ_le_succ (ih _ _ _ _)
      · exact Nat.succ_le_succ (ih _ _ _ _)

/-- C1 counterexample.  With an encoder whose output at every quality
is exactly 1024 bytes and a 1 KB ceiling, `compress_to_size` succeeds
on the very first attempt (the code's fit test is `len(data) <=
max_bytes`) and returns bytes whose size equals `max_kb * 1024` — not
strictly below it, contradicting the claim that the encoded size is
never equal to the ceiling. -/
theorem compress_to_size_can_return_exact_ceiling :
    (compress_to_size (fun _ => 1024) 1 85).1 =
      Except.ok ⟨1024, 85⟩ ∧
    ¬ (1024 < 1 * 1024) := by
  constructor
  · rfl
  · decide

/-- C1 (amended).  Whenever `compress_to_size` succeeds, the size of
the returned encoded bytes is at most `max_kb * 1024` (less than or
equal to the ceiling; equality is possible).  Every `Except.ok` branch
of the source is guarded by a `len(data) <= max_bytes` test, so this
holds for every encoder, ceiling and initial quality. -/
theorem compress_to_size_size_le_ceiling
    (encode : Nat → Nat) (max_kb initial_quality : Nat)
    (res : CompressResult) (n : Nat)
    (h : compress_to_size encode max_kb initial_quality = (Except.ok res, n)) :
    res.size ≤ max_kb * 1024 := by
  unfold compress_to_size at h
  simp only at h
  split at h
  · rename_i hfit
    have h1 := congrArg Prod.fst h
    simp only at h1
    injection h1 with h2
    subst h2
    exact hfit
  · split at h
    · split at h
      · exact absurd (congrArg Prod.fst h) (by simp)
      · rename_i hFloorFit
        have h1 := congrArg Prod.fst h
        simp only at h1
        injection h1 with h2
        subst h2
        exact Nat.le_of_not_lt hFloorFit
    · rename_i hBestFit
      have h1 := congrArg Prod.fst h
      simp only at h1
      injection h1 with h2
      subst h2
      exact Nat.le_of_not_lt hBestFit

/-- Witness for `compress_to_size_size_le_ceiling` at the constant
1000-byte encoder with a 1 KB ceiling. -/
theorem compress_to_size_size_le_ceiling_witness :
    (⟨1000, 85⟩ : CompressResult).size ≤ 1 * 1024 :=
  compress_to_size_size_le_ceiling (fun _ => 1000) 1 85 ⟨1000, 85⟩ 1 rfl

/-- C2.  For every encoder, ceiling and initial quality the search
performs at most 22 encode attempts (1 initial + at most 20 loop
midpoints + at most 1 floor attempt) — it is a total function, so it
always terminates — and the only failure it can report is the
SIZE_EXCEEDED record produced when even the floor-quality encoding
exceeds the ceiling, carrying the achieved size in KB and the target. -/
theorem compress_to_size_attempts_le_22
    (encode : Nat → Nat) (max_kb initial_quality : Nat) :
    (compress_to_size encode max_kb initial_quality).2 ≤ 22 ∧
    (∀ e, (compress_to_size encode max_kb initial_quality).1 = Except.error e →
      max_kb * 1024 < encode MIN_JPEG_QUALITY ∧
      e = ⟨encode MIN_JPEG_QUALITY / 1024, max_kb⟩) := by
  have hloop := compressLoop_count_le encode (max_kb * 1024)
    MAX_COMPRESSION_ITERATIONS MIN_JPEG_QUALITY initial_quality
    (encode initial_quality) initial_quality
  have h20 : MAX_COMPRESSION_ITERATIONS = 20 := rfl
  constructor
  · unfold compress_to_size
    simp only
    split
    · omega
    · split
      · split <;> (simp only; omega)
      · simp only; omega
  · intro e he
    unfold compress_to_size at he
    simp only at he
    split at he
    · exact absurd he (by simp)
    · split at he
      · split at he
        · rename_i hFloor
          refine ⟨hFloor, ?_⟩
          have := Except.error.injEq .. ▸ he
          exact this.symm
        · exact absurd he (by simp)
      · exact absurd he (by simp)

/-- Witness for `compress_to_size_attempts_le_22`: a constant 2048-byte
encoder against a 1 KB ceiling fails with SIZE_EXCEEDED after at most
22 attempts. -/
theorem compress_to_size_attempts_le_22_witness :
    (compress_to_size (fun _ => 2048) 1 85).2 ≤ 22 ∧
    (1 * 1024 < 2048 ∧
      (⟨2, 1⟩ : SizeExceededErr) = ⟨2048 / 1024, 1⟩) :=
  ⟨(compress_to_size_attempts_le_22 (fun _ => 2048) 1 85).1,
   (compress_to_size_attempts_le_22 (fun _ => 2048) 1 85).2 ⟨2, 1⟩ rfl⟩

end Schema

namespace Quality

theorem compute_sharpness_mem (v : ℚ) :
    0 ≤ compute_sharpness v ∧ compute_sharpness v ≤ 1 := by
  unfold compute_sharpness SHARPNESS_MAX
  constructor
  · apply div_nonneg _ (by norm_num)
    exact le_min (le_trans (by norm_num) (le_max_right v 0.0)) (by norm_num)
  · rw [div_le_one (by norm_num)]
    exact min_le_right _ _

theorem compute_exposure_mem (s d b : ℚ) (hs : 0 ≤ s) :
    0 ≤ compute_exposure s d b ∧ compute_exposure s d b ≤ 1 := by
  unfold compute_exposure
  dsimp only
  split_ifs <;> constructor <;> linarith

theorem compute_noise_mem (ns : ℚ) (h : 0 ≤ ns) :
    0 ≤ compute_noise ns ∧ compute_noise ns ≤ 1 := by
  unfold compute_noise
  constructor
  · have := min_le_right (ns / 30) (1 : ℚ)
    linarith
  · have : (0:ℚ) ≤ min (ns / 30) 1 := le_min (by positivity) (by norm_num)
    linarith

theorem compute_edge_density_mem (d : ℚ) (h0 : 0 ≤ d) (h1 : d ≤ 1) :
    0 ≤ compute_edge_density d ∧ compute_edge_density d ≤ 1 := by
  unfold compute_edge_density
  split_ifs with hA hB hC hD
  · refine ⟨by positivity, ?_⟩
    rw [div_le_one (by norm_num)]
    linarith
  · have hge : (0:ℚ) ≤ (d - 2e-2) / 3e-2 := div_nonneg (by linarith) (by norm_num)
    have hle : (d - 2e-2) / 3e-2 ≤ 1 := by
      rw [div_le_one (by norm_num)]; linarith
    exact ⟨by linarith, by linarith⟩
  · exact ⟨by norm_num, by norm_num⟩
  · have hge : (0:ℚ) ≤ (d - 0.15) / 0.10 := div_nonneg (by linarith) (by norm_num)
    have hle : (d - 0.15) / 0.10 ≤ 1 := by
      rw [div_le_one (by norm_num)]; linarith
    exact ⟨by linarith, by linarith⟩
  · refine ⟨le_trans (by norm_num) (le_max_left _ _), ?_⟩
    exact max_le (by norm_num) (by linarith)

/-- C5.  For every successfully decoded image (its extracted statistics
lying in the ranges such statistics satisfy), the composite quality
score equals exactly `0.35·sharpness + 0.30·exposure + 0.20·noise +
0.15·edge_density`, and the four submetrics and the composite all lie
in `[0,1]`. -/
theorem assess_quality_weighted_sum_and_ranges
    (m : RawImageStats) (hm : m.Valid) :
    (assess_quality m).score =
      0.35 * (assess_quality m).breakdown.sharpness +
      0.30 * (assess_quality m).breakdown.exposure +
      0.20 * (assess_quality m).breakdown.noise +
      0.15 * (assess_quality m).breakdown.edge_density ∧
    (0 ≤ (assess_quality m).breakdown.sharpness ∧
      (assess_quality m).breakdown.sharpness ≤ 1) ∧
    (0 ≤ (assess_quality m).breakdown.exposure ∧
      (assess_quality m).breakdown.exposure ≤ 1) ∧
    (0 ≤ (assess_quality m).breakdown.noise ∧
      (assess_quality m).breakdown.noise ≤ 1) ∧
    (0 ≤ (assess_quality m).breakdown.edge_density ∧
      (assess_quality m).breakdown.edge_density ≤ 1) ∧
    (0 ≤ (assess_quality m).score ∧ (assess_quality m).score ≤ 1) := by
  obtain ⟨hv, hs, _, hd1, _, hb1, hn, he0, he1⟩ := hm
  have Hs := compute_sharpness_mem m.variance
  have He := compute_exposure_mem m.std_val m.dark_fraction m.bright_fraction hs
  have Hn := compute_noise_mem m.noise_std hn
  have Hd := compute_edge_density_mem m.density he0 he1
  unfold assess_quality
  dsimp only
  refine ⟨rfl, Hs, He, Hn, Hd, ?_, ?_⟩
  · nlinarith [Hs.1, He.1, Hn.1, Hd.1]
  · nlinarith [Hs.2, He.2, Hn.2, Hd.2]

/-- Witness for `assess_quality_weighted_sum_and_ranges` at concrete
statistics (variance 100, std 50, fractions 1/10, residual std 10,
edge density 1/10). -/
theorem assess_quality_weighted_sum_and_ranges_witness :
    (⟨100, 50, 1/10, 1/10, 10, 1/10⟩ : RawImageStats).Valid ∧
    (0 ≤ (assess_quality ⟨100, 50, 1/10, 1/10, 10, 1/10⟩).score ∧
      (assess_quality ⟨100, 50, 1/10, 1/10, 10, 1/10⟩).score ≤ 1) :=
  ⟨by norm_num [RawImageStats.Valid],
   (assess_quality_weighted_sum_and_ranges ⟨100, 50, 1/10, 1/10, 10, 1/10⟩
     (by norm_num [RawImageStats.Valid])).2.2.2.2.2⟩

/-- C9 counterexample.  The image `darkBoundaryPixels` has histogram
standard deviation 60 (variance 3600), dark mass fraction exactly 90%
and bright mass fraction 0.  The source `compute_exposure` applies no
penalty there (its test is the strict `dark_fraction > 0.9`) and scores
0.9, while the claimed inclusive-threshold map (at least 90%) would
multiply by 0.3 and score 0.27 — so the claim's inclusive boundary is
wrong on the code. -/
theorem compute_exposure_inclusive_boundary_fails :
    pixel_dark_fraction darkBoundaryPixels = 9/10 ∧
    pixel_bright_fraction darkBoundaryPixels = 0 ∧
    pixel_variance darkBoundaryPixels = 3600 ∧
    (60 : ℚ) ^ 2 = 3600 ∧
    compute_exposure 60 (9/10) 0 = 9/10 ∧
    compute_exposure_inclusive 60 (9/10) 0 = 27/100 ∧
    compute_exposure 60 (9/10) 0 ≠ compute_exposure_inclusive 60 (9/10) 0 := by
  refine ⟨?_, ?_, ?_, by norm_num, ?_, ?_, ?_⟩
  · norm_num [pixel_dark_fraction, darkBoundaryPixels, List.countP_cons, List.countP_nil]
  · norm_num [pixel_bright_fraction, darkBoundaryPixels, List.countP_cons, List.countP_nil]
  · norm_num [pixel_variance, pixel_mean, darkBoundaryPixels]
  · norm_num [compute_exposure]
  · norm_num [compute_exposure_inclusive]
  · norm_num [compute_exposure, compute_exposure_inclusive]

/-- C9 (amended).  For all histogram statistics, the source exposure
metric coincides with the amended spec map whose two override penalties
use strict thresholds (strictly more than 90% dark mass multiplies by
0.3, strictly more than 98% bright mass multiplies by 0.5); the
contrast piecewise map and the `std ≥ 80 → 1.0` band are as the claim
states them. -/
theorem compute_exposure_eq_strict_spec
    (std_val dark_fraction bright_fraction : ℚ) :
    compute_exposure std_val dark_fraction bright_fraction =
      compute_exposure_strict std_val dark_fraction bright_fraction := rfl

end Quality

namespace Enhancement

/-- C4.  For every quality score in `[0,1]` supplied in the options and
every baseline OCR confidence, the GUARD-001 skip check returns true
iff the score strictly exceeds 0.75 and the readability flag (baseline
confidence strictly above 0.5) is set. -/
theorem should_skip_enhancement_iff
    (q conf : ℚ) (opts : EnhancementOptions)
    (hq : opts.quality_score = some q)
    (hr : opts.is_readable = Worker.is_readable conf)
    (h0 : 0 ≤ q) (h1 : q ≤ 1) :
    (should_skip_enhancement opts = true ↔ (q > 0.75 ∧ conf > 0.5)) := by
  unfold should_skip_enhancement READABLE_QUALITY_THRESHOLD
  rw [hq, hr]
  unfold Worker.is_readable
  simp [Bool.and_eq_true, decide_eq_true_eq]

/-- Witness for `should_skip_enhancement_iff` at quality score 0.8 and
baseline confidence 0.9. -/
theorem should_skip_enhancement_iff_witness :
    should_skip_enhancement
        { quality_score := some 0.8, is_readable := Worker.is_readable 0.9 } = true ↔
      ((0.8 : ℚ) > 0.75 ∧ (0.9 : ℚ) > 0.5) :=
  should_skip_enhancement_iff 0.8 0.9
    { quality_score := some 0.8, is_readable := Worker.is_readable 0.9 }
    rfl rfl (by norm_num) (by norm_num)

/-- C10.  Whenever the options carry no quality score
(`quality_score is None`), the GUARD-001 skip check returns false, for
every readability flag: enhancement is never skipped without a quality
score. -/
theorem should_skip_enhancement_none_false
    (opts : EnhancementOptions) (h : opts.quality_score = none) :
    should_skip_enhancement opts = false := by
  unfold should_skip_enhancement
  rw [h]

/-- Witness for `should_skip_enhancement_none_false` with the
readability flag set. -/
theorem should_skip_enhancement_none_false_witness :
    should_skip_enhancement { quality_score := none, is_readable := true } = false :=
  should_skip_enhancement_none_false
    { quality_score := none, is_readable := true } rfl

/-- C7.  For every image, parameters, and OpenCV behaviour: when the
non-local-means primitive fails, `denoise` returns the unmodified image
with `applied=false`, and when any step of the white-balance/CLAHE
chain fails, `normalize_color` returns the unmodified image with
`applied=false`; both are total functions of their inputs, so no
failure escapes as an exception. -/
theorem denoise_normalize_color_fail_closed {Img Ch : Type}
    (ops : CvOps Img Ch) (img : Img) (strength : Nat)
    (clip_limit : ℚ) (grid_size : Nat × Nat) :
    (∀ e, ops.fastNlMeansDenoisingColored img strength = Except.error e →
      denoise ops img strength = (img, false)) ∧
    (∀ e, normalizeColorChain ops img clip_limit grid_size = Except.error e →
      normalize_color ops img clip_limit grid_size = (img, false)) := by
  constructor
  · intro e he
    unfold denoise
    rw [he]
  · intro e he
    unfold normalize_color
    rw [he]

/-- Witness for `denoise_normalize_color_fail_closed` with the
all-failing OpenCV fixture on the unit image. -/
theorem denoise_normalize_color_fail_closed_witness :
    denoise failingCvOps () 7 = ((), false) ∧
    normalize_color failingCvOps () 2.0 (8, 8) = ((), false) :=
  ⟨(denoise_normalize_color_fail_closed failingCvOps () 7 2.0 (8, 8)).1
      ⟨"cv2.error"⟩ rfl,
   (denoise_normalize_color_fail_closed failingCvOps () 7 2.0 (8, 8)).2
      ⟨"cv2.error"⟩ rfl⟩

/-- C6.  Whenever GUARD-001 fires, a successful `enhance_image` run has
`denoised=false` and `color_normalized=false` — the denoising and
color-normalization steps are suppressed — for every OpenCV behaviour,
decode/encode behaviour and input; and there is a run on which the
guard fires while orientation correction is still applied
(`orientation_corrected=true`). -/
theorem enhance_image_skip_suppresses {Img Ch B : Type} (ops : CvOps Img Ch)
    (decode_image : B → Except Errors.WorkerError Img)
    (encode_image : Img → Except Errors.WorkerError B)
    (data : B) (options : EnhancementOptions)
    (hskip : should_skip_enhancement options = true)
    (res : EnhancementResult B)
    (h : enhance_image ops decode_image encode_image data options = Except.ok res) :
    (res.denoised = false ∧ res.color_normalized = false) ∧
    (∃ res' : EnhancementResult Unit,
      should_skip_enhancement skipOptions = true ∧
      enhance_image rotatingCvOps okDecode okEncode () skipOptions = Except.ok res' ∧
      res'.orientation_corrected = true ∧
      res'.denoised = false ∧ res'.color_normalized = false) := by
  constructor
  · unfold enhance_image at h
    rw [hskip] at h
    simp only [Bool.not_true, Bool.and_false, Bool.false_eq_true, if_false] at h
    rcases hdec : decode_image data with e | img0
    · rw [hdec] at h
      exact absurd h (by simp)
    · rw [hdec] at h
      simp only at h
      rcases henc : encode_image (if options.correct_orientation then
          ops.correct_orientation img0 else (img0, false)).1 with e | out
      · rw [henc] at h
        exact absurd h (by simp)
      · rw [henc] at h
        simp only [Except.ok.injEq] at h
        rw [← h]
        exact ⟨rfl, rfl⟩
  · refine ⟨⟨(), true, false, false⟩, ?_, ?_, rfl, rfl, rfl⟩
    · have : (0.9 : ℚ) > READABLE_QUALITY_THRESHOLD := by
        unfold READABLE_QUALITY_THRESHOLD; norm_num
      simp [should_skip_enhancement, skipOptions, this]
    · have hsk : should_skip_enhancement skipOptions = true := by
        have : (0.9 : ℚ) > READABLE_QUALITY_THRESHOLD := by
          unfold READABLE_QUALITY_THRESHOLD; norm_num
        simp [should_skip_enhancement, skipOptions, this]
      unfold enhance_image
      rw [hsk]
      simp [okDecode, okEncode, rotatingCvOps, skipOptions]

/-- Witness for `enhance_image_skip_suppresses` on the unit image with
the all-succeeding OpenCV fixture. -/
theorem enhance_image_skip_suppresses_witness :
    ((⟨(), true, false, false⟩ : EnhancementResult Unit).denoised = false ∧
      (⟨(), true, false, false⟩ : EnhancementResult Unit).color_normalized = false) ∧
    (∃ res' : EnhancementResult Unit,
      should_skip_enhancement skipOptions = true ∧
      enhance_image rotatingCvOps okDecode okEncode () skipOptions = Except.ok res' ∧
      res'.orientation_corrected = true ∧
      res'.denoised = false ∧ res'.color_normalized = false) := by
  refine enhance_image_skip_suppresses rotatingCvOps okDecode okEncode ()
    skipOptions ?_ ⟨(), true, false, false⟩ ?_
  · have : (0.9 : ℚ) > READABLE_QUALITY_THRESHOLD := by
      unfold READABLE_QUALITY_THRESHOLD; norm_num
    simp [should_skip_enhancement, skipOptions, this]
  · have hsk : should_skip_enhancement skipOptions = true := by
      have : (0.9 : ℚ) > READABLE_QUALITY_THRESHOLD := by
        unfold READABLE_QUALITY_THRESHOLD; norm_num
      simp [should_skip_enhancement, skipOptions, this]
    unfold enhance_image
    rw [hsk]
    simp [okDecode, okEncode, rotatingCvOps, skipOptions]

end Enhancement

namespace Worker

/-- C3.  For all baseline and candidate OCR confidences in `[0,1]`,
GUARD-002 rolls back iff the candidate is strictly below the baseline
minus 0.10; in particular a drop of exactly 0.10 does not roll back and
a drop of 0.101 does.  The code's additional `pre_ocr_confidence > 0`
conjunct is redundant on `[0,1]`: a candidate below `baseline − 0.10`
forces the baseline above 0.10. -/
theorem rollback_triggered_iff (pre post : ℚ)
    (h0 : 0 ≤ pre) (h1 : pre ≤ 1) (h2 : 0 ≤ post) (h3 : post ≤ 1) :
    (rollback_triggered pre post = true ↔ post < pre - 0.10) ∧
    (post = pre - 0.10 → rollback_triggered pre post = false) ∧
    (post = pre - 0.101 → rollback_triggered pre post = true) := by
  unfold rollback_triggered OCR_ROLLBACK_THRESHOLD
  simp only [Bool.and_eq_true, decide_eq_true_eq]
  refine ⟨⟨fun hc => hc.2, fun hlt => ⟨by linarith, hlt⟩⟩, ?_, ?_⟩
  · intro heq
    rw [Bool.and_eq_false_iff]
    right
    rw [decide_eq_false_iff_not]
    linarith
  · intro heq
    exact ⟨by linarith, by linarith⟩

/-- Witness for `rollback_triggered_iff` at baseline 1 and candidate
0. -/
theorem rollback_triggered_iff_witness :
    rollback_triggered 1 0 = true ↔ (0 : ℚ) < 1 - 0.10 :=
  (rollback_triggered_iff 1 0 (by norm_num) (by norm_num)
    (by norm_num) (by norm_num)).1

end Worker

namespace Ocr

/-- C8.  For every behaviour of the OCR capability and every input:
when `extract_text` raises a `WorkerError` (decode or engine
initialization failed), `extract_text_safe` absorbs it into the empty
observation with the error string as warning; and when the capability
itself fails at runtime (inference or parsing), `extract_text` already
returns the empty observation (`text=""`, `confidence=0.0`,
`boxes=[]`) without raising, and `extract_text_safe` attaches the
"no text" warning.  Both wrappers are total, so the pipeline never
receives an exception from OCR. -/
theorem extract_text_safe_fail_closed {B Img Engine PaddleRes : Type}
    (steps : OcrSteps B Img Engine PaddleRes) (data : B) :
    (∀ e, extract_text steps data = Except.error e →
      extract_text_safe steps data = (⟨"", 0.0, []⟩, some e.str)) ∧
    (∀ img engine err, steps.decode_image_for_ocr data = Except.ok img →
      steps.get_ocr_engine = Except.ok engine →
      inferAndParse steps engine img = Except.error err →
      extract_text steps data = Except.ok ⟨"", 0.0, []⟩ ∧
      extract_text_safe steps data = (⟨"", 0.0, []⟩, some "OCR returned no text")) := by
  constructor
  · intro e he
    unfold extract_text_safe
    rw [he]
  · intro img engine err hdec heng hinf
    have hext : extract_text steps data = Except.ok ⟨"", 0.0, []⟩ := by
      unfold extract_text
      rw [hdec]
      dsimp only
      rw [heng]
      dsimp only
      rw [hinf]
    refine ⟨hext, ?_⟩
    unfold extract_text_safe
    rw [hext]
    have htrim : "".trim = "" := by
      simp [String.trim, String.trimRight, String.trimLeft, Substring.trim,
        Substring.trimRight, Substring.trimLeft, String.toSubstring,
        Substring.toString, String.extract, Substring.takeWhileAux,
        Substring.takeRightWhileAux]
    simp [htrim]

/-- Witness for `extract_text_safe_fail_closed` on the fixture whose
inference step crashes. -/
theorem extract_text_safe_fail_closed_witness :
    extract_text crashingOcrSteps () = Except.ok ⟨"", 0.0, []⟩ ∧
    extract_text_safe crashingOcrSteps () =
      (⟨"", 0.0, []⟩, some "OCR returned no text") :=
  (extract_text_safe_fail_closed crashingOcrSteps ()).2 () ()
    ⟨"paddle crashed"⟩ rfl rfl rfl

end Ocr
